import Mathlib

/-!
Shallow embedding of `src/WebAppKetahananPangan.py`, a Streamlit app for
recording income/expense transactions of a fish-farming cooperative.

The embedding covers:
* the calendar helpers `week_of_month` and `build_periode` (source lines 46-64),
  together with a model of Python's `datetime.date` (validity, `weekday()`,
  `strftime`);
* the sidebar handlers "Simpan Transaksi" (insert with validation),
  "Simpan Perubahan" (update) and "Hapus Data" (delete), source lines 95-149;
* the filtered listing query (source lines 165-179);
* the rollups: the per-category pivot with `Saldo` (lines 197-202) and the
  per-period rekap tables (lines 211-213).

Numbers: SQLite stores `jumlah` as REAL and the handlers compare with `<= 0`;
amounts are modelled as `Rat` (exact for every value the claims mention).
Python's `strftime('%B')` renders the month name from the runtime locale; the
program never calls `locale.setlocale`, so CPython's default C locale applies
and `%B` yields the English month names, which is what `monthNameEn` models.
`strftime('%Y')` is modelled as the year zero-padded to four digits, following
the CPython documentation table for `%Y`.
-/

/-! ## Decimal rendering (model of Python `str(int)` / `strftime` padding) -/

/-- Little-endian base-10 digits with explicit fuel, so that the kernel can
evaluate it structurally. With fuel ≥ n it agrees with `Nat.digits 10 n`. -/
def digitsAux10 : Nat → Nat → List Nat
  | _, 0 => []
  | 0, _ + 1 => []
  | fuel + 1, n + 1 => (n + 1) % 10 :: digitsAux10 fuel ((n + 1) / 10)

/-- Little-endian base-10 digits of `n` (fuel `n` always suffices). -/
def decDigits (n : Nat) : List Nat := digitsAux10 n n

/-- Character for a single decimal digit. -/
def digitChar10 (d : Nat) : Char := Char.ofNat (48 + d)

/-- Decimal string of a natural number, as Python's `str` renders it. -/
def natStr (n : Nat) : String :=
  if n = 0 then "0" else String.mk (((decDigits n).reverse).map digitChar10)

/-- Characters of `n` zero-padded on the left to `width`, as `strftime`'s
zero-padded numeric directives (`%Y`, `%m`, `%d`) render it. -/
def zfillChars (width n : Nat) : List Char :=
  List.replicate (width - (natStr n).toList.length) '0' ++ (natStr n).toList

/-- Zero-padded decimal string. -/
def zfill (width n : Nat) : String := String.mk (zfillChars width n)

/-! ## Model of Python `datetime.date` -/

/-- A calendar date, as Python's `datetime.date` holds it. -/
structure Date where
  year : Nat
  month : Nat
  day : Nat
deriving DecidableEq, Repr

/-- Gregorian leap-year rule (Python `calendar.isleap`). -/
def isLeap (y : Nat) : Bool :=
  y % 4 = 0 && (y % 100 ≠ 0 || y % 400 = 0)

/-- Days in a month of the proleptic Gregorian calendar. -/
def daysInMonth (y m : Nat) : Nat :=
  if m = 2 then (if isLeap y then 29 else 28)
  else if m = 4 ∨ m = 6 ∨ m = 9 ∨ m = 11 then 30
  else 31

/-- The ranges `datetime.date` accepts (year 1..9999, valid month and day). -/
def ValidDate (d : Date) : Prop :=
  1 ≤ d.year ∧ d.year ≤ 9999 ∧ 1 ≤ d.month ∧ d.month ≤ 12 ∧
    1 ≤ d.day ∧ d.day ≤ daysInMonth d.year d.month

instance (d : Date) : Decidable (ValidDate d) := by
  unfold ValidDate; infer_instance

/-- Days in the months strictly before month `m` of year `y`. -/
def daysBeforeMonth (y m : Nat) : Nat :=
  ((List.range (m - 1)).map (fun i => daysInMonth y (i + 1))).sum

/-- Proleptic Gregorian ordinal of a date, as Python's `date.toordinal`:
0001-01-01 has ordinal 1. -/
def toordinal (d : Date) : Nat :=
  365 * (d.year - 1) + (d.year - 1) / 4 - (d.year - 1) / 100 + (d.year - 1) / 400
    + daysBeforeMonth d.year d.month + d.day

/-- Python's `date.weekday()`: Monday = 0 .. Sunday = 6. 0001-01-01 is a
Monday, so the weekday is the ordinal shifted by 6 modulo 7. -/
def pyWeekday (d : Date) : Nat := (toordinal d + 6) % 7

/-! ## The period helpers from the source (lines 46-64) -/

/-- Source `week_of_month`: `first_day = dt.replace(day=1)`,
`adjusted = dom + first_day.weekday()`, result `(adjusted - 1) // 7 + 1`. -/
def week_of_month (dt : Date) : Nat :=
  let first_day : Date := ⟨dt.year, dt.month, 1⟩
  let dom := dt.day
  let adjusted := dom + pyWeekday first_day
  (adjusted - 1) / 7 + 1

/-- Month names produced by `strftime('%B')` under CPython's default C
locale (the program never changes the locale). -/
def monthNameEn (m : Nat) : String :=
  ["January", "February", "March", "April", "May", "June", "July",
   "August", "September", "October", "November", "December"].getD (m - 1) ""

/-- Model of `dt.strftime("%Y-%m-%d")`. -/
def pyIso (dt : Date) : String :=
  zfill 4 dt.year ++ "-" ++ zfill 2 dt.month ++ "-" ++ zfill 2 dt.day

/-- Model of `dt.strftime("%B %Y")`. -/
def pyBY (dt : Date) : String := monthNameEn dt.month ++ " " ++ zfill 4 dt.year

/-- Source `build_periode`: dispatch on the category string, with an empty
string as the fallback for an unknown category. -/
def build_periode (dt : Date) (kategori : String) : String :=
  if kategori = "Harian" then pyIso dt
  else if kategori = "Mingguan" then
    pyBY dt ++ " - Minggu " ++ natStr (week_of_month dt)
  else if kategori = "Bulanan" then pyBY dt
  else if kategori = "Tahunan" then zfill 4 dt.year
  else ""

/-! ## The transaction store (table `transaksi`) and the sidebar handlers -/

/-- A row of the `transaksi` table. `created_at` is a DB-assigned wall-clock
timestamp and plays no role in any handler or query, so it is not modelled. -/
structure Transaksi where
  id : Nat
  periode : String
  kategori : String
  jenis : String
  keterangan : String
  jumlah : Rat
deriving DecidableEq, Repr

/-- The SQLite database: the rows plus the next AUTOINCREMENT id. -/
structure DB where
  rows : List Transaksi
  nextId : Nat
deriving DecidableEq, Repr

/-- The INSERT of the "Simpan Transaksi" handler (source line 103-106):
`INSERT INTO transaksi (periode, kategori, jenis, keterangan, jumlah)`
with an auto-assigned id. -/
def insertRow (db : DB) (periode kategori jenis keterangan : String)
    (jumlah : Rat) : DB :=
  { rows := db.rows ++ [⟨db.nextId, periode, kategori, jenis, keterangan, jumlah⟩],
    nextId := db.nextId + 1 }

/-- The "Simpan Transaksi" handler (source lines 92-108): `periode` is
computed by `build_periode(tgl, kategori)` before the button branch; the
handler rejects with `"Jumlah harus lebih dari 0"` when
`not jumlah or jumlah <= 0`, with `"Pilih jenis transaksi"` when `not jenis`,
and otherwise inserts. On `Except.error` no mutation has happened. -/
def simpanTransaksi (db : DB) (tgl : Date) (kategori jenis keterangan : String)
    (jumlah : Rat) : Except String DB :=
  let periode := build_periode tgl kategori
  if jumlah = 0 ∨ jumlah ≤ 0 then Except.error "Jumlah harus lebih dari 0"
  else if jenis = "" then Except.error "Pilih jenis transaksi"
  else Except.ok (insertRow db periode kategori jenis keterangan jumlah)

/-- The "Simpan Perubahan" handler (source lines 131-141): recomputes
`periode_e = build_periode(tgl_e, kategori_e)` and runs
`UPDATE transaksi SET periode=?, kategori=?, jenis=?, keterangan=?, jumlah=?
WHERE id=?`. -/
def simpanPerubahan (db : DB) (pick_id : Nat) (tgl_e : Date)
    (kategori_e jenis_e ket_e : String) (jml_e : Rat) : DB :=
  let periode_e := build_periode tgl_e kategori_e
  { db with
    rows := db.rows.map (fun r =>
      if r.id = pick_id then
        { r with periode := periode_e, kategori := kategori_e,
                 jenis := jenis_e, keterangan := ket_e, jumlah := jml_e }
      else r) }

/-- The "Hapus Data" handler (source lines 145-149): it runs
`DELETE FROM transaksi WHERE id=?` unconditionally and reports success.
SQLite's DELETE succeeds even when no row matches, so the handler has no
failure path; the `Except` result type exposes that fact (the error
constructor is never produced) so that the spec's claimed `NotFound`
behaviour can be stated and compared. -/
def hapusData (db : DB) (pick_id : Nat) : Except String DB :=
  Except.ok { db with rows := db.rows.filter (fun r => r.id ≠ pick_id) }

/-! ## The filtered listing (source lines 165-179) -/

/-- Characters Python's `str.isspace()` treats as whitespace, which is the
set `str.strip()` removes: code points 9-13 (tab, newline, vertical tab,
form feed, carriage return), 28-31 (separators), 32 (space), 133 (next
line), 160 (no-break space), 5760 (ogham space mark), 8192-8202 (en quad
through hair space), 8232 and 8233 (line and paragraph separators),
8239 (narrow no-break space), 8287 (medium mathematical space) and
12288 (ideographic space). -/
def pyIsSpace (c : Char) : Bool :=
  (9 ≤ c.toNat && c.toNat ≤ 13) || (28 ≤ c.toNat && c.toNat ≤ 32) ||
    c.toNat = 133 || c.toNat = 160 || c.toNat = 5760 ||
    (8192 ≤ c.toNat && c.toNat ≤ 8202) || c.toNat = 8232 ||
    c.toNat = 8233 || c.toNat = 8239 || c.toNat = 8287 || c.toNat = 12288

/-- Model of Python's `str.strip()`: drop `str.isspace` characters from
both ends. -/
def pyStrip (s : String) : String :=
  String.mk (((s.toList.dropWhile pyIsSpace).reverse.dropWhile
    pyIsSpace).reverse)

/-- ASCII-only lowercasing, as SQLite's default `LIKE` folds case. -/
def asciiLowerChar (c : Char) : Char :=
  if 'A' ≤ c ∧ c ≤ 'Z' then Char.ofNat (c.toNat + 32) else c

/-- Lowercase a string ASCII-wise. -/
def asciiLower (s : String) : String := String.mk (s.toList.map asciiLowerChar)

/-- Test whether `p` occurs at the head of `h`. -/
def leadsWith : List Char → List Char → Bool
  | [], _ => true
  | _ :: _, [] => false
  | a :: p, b :: h => a = b && leadsWith p h

/-- Boolean contiguous-sublist test on character lists. -/
def containsChars (pat : List Char) : List Char → Bool
  | [] => pat.isEmpty
  | c :: t => leadsWith pat (c :: t) || containsChars pat t

/-- SQLite's LIKE matcher on character lists, with explicit fuel so the
kernel can evaluate it structurally: `%` matches any sequence (including
the empty one), `_` matches exactly one character, and any other pattern
character compares ASCII-case-insensitively. Every recursive call strictly
decreases `pattern length + string length`, and the clauses needing fuel
have a nonempty pattern, so fuel equal to that sum never runs out. -/
def likeAux : Nat → List Char → List Char → Bool
  | _, [], [] => true
  | _, [], _ :: _ => false
  | 0, _ :: _, _ => false
  | fuel + 1, p :: ps, s =>
    if p = '%' then
      likeAux fuel ps s ||
        (match s with
         | [] => false
         | _ :: t => likeAux fuel (p :: ps) t)
    else
      match s with
      | [] => false
      | c :: t =>
        (p = '_' || asciiLowerChar p = asciiLowerChar c) && likeAux fuel ps t

/-- Model of the source's `col LIKE '%text%'` (SQLite, default
case-insensitivity): the stripped search text is interpolated unescaped
between two `%`, so `%` and `_` inside the text keep their wildcard
meaning. -/
def likeMatch (col pat : String) : Bool :=
  likeAux (pat.toList.length + col.toList.length + 2)
    ('%' :: (pat.toList ++ ['%'])) col.toList

/-- The WHERE clause built by the listing code: the `kategori = ?` condition
when the category filter is not "Semua", AND the
`(periode LIKE ? OR jenis LIKE ? OR keterangan LIKE ?)` condition when the
stripped search text is nonempty. -/
def matchesFilter (filter_kat cari : String) (r : Transaksi) : Bool :=
  (if filter_kat = "Semua" then true else r.kategori = filter_kat)
    && (if pyStrip cari = "" then true
        else likeMatch r.periode (pyStrip cari) || likeMatch r.jenis (pyStrip cari)
          || likeMatch r.keterangan (pyStrip cari))

/-- The ordering `ORDER BY id DESC` sorts by. -/
def idGe (a b : Transaksi) : Prop := b.id ≤ a.id

instance : DecidableRel idGe := fun a b => Nat.decLe b.id a.id

instance : IsTotal Transaksi idGe := ⟨fun a b => Nat.le_total b.id a.id⟩

instance : IsTrans Transaksi idGe :=
  ⟨fun _ _ _ h1 h2 => Nat.le_trans h2 h1⟩

/-- The listing query
`SELECT ... FROM transaksi [WHERE ...] ORDER BY id DESC`. -/
def listTransaksi (db : DB) (filter_kat cari : String) : List Transaksi :=
  List.insertionSort idGe (db.rows.filter (matchesFilter filter_kat cari))

/-! ## The rollups (source lines 197-213) -/

/-- Total `jumlah` over the rows of one (kategori, jenis) cell, as
`df.groupby(["kategori", "jenis"]).agg(total=("jumlah", "sum"))` computes
it, with an absent cell contributing 0 (the `fillna(0)` / `tbl.get(_, 0)`). -/
def totalKJ (rows : List Transaksi) (kat jenis : String) : Rat :=
  ((rows.filter (fun r => r.kategori = kat ∧ r.jenis = jenis)).map
    (fun r => r.jumlah)).sum

/-- The `Saldo` column of the category pivot (source line 201):
`tbl.get("Pemasukan", 0) - tbl.get("Pengeluaran", 0)`. -/
def saldo (rows : List Transaksi) (kat : String) : Rat :=
  totalKJ rows kat "Pemasukan" - totalKJ rows kat "Pengeluaran"

/-- The per-period rekap for one category (source lines 211-213):
filter `df[df["kategori"] == kat]`, then group by (periode, jenis) and sum
the numeric `jumlah` column. Keys appear once each, in first-seen order
(pandas' ordering of group keys is irrelevant to the claims). -/
def groupPJ (rows : List Transaksi) (kat : String) :
    List ((String × String) × Rat) :=
  let m := rows.filter (fun r => r.kategori = kat)
  ((m.map (fun r => (r.periode, r.jenis))).dedup).map (fun k =>
    (k, ((m.filter (fun r => (r.periode, r.jenis) = k)).map
      (fun r => r.jumlah)).sum))

/-- Source line 211. -/
def rekap_mingguan (rows : List Transaksi) : List ((String × String) × Rat) :=
  groupPJ rows "Mingguan"

/-- Source line 212. -/
def rekap_bulanan (rows : List Transaksi) : List ((String × String) × Rat) :=
  groupPJ rows "Bulanan"

/-- Source line 213. -/
def rekap_tahunan (rows : List Transaksi) : List ((String × String) × Rat) :=
  groupPJ rows "Tahunan"

/-! ## Statements taken verbatim from the spec, for comparison -/

/-- Modelled from the spec's words for the week-of-month scheme:
`W = floor((day_of_month - 1 + offset) / 7) + 1` with `offset` the
Monday-anchored weekday index of the first day of the month. Compared with
the source's `week_of_month` in the C2 theorem. -/
def spec_week_of_month (d : Date) : Nat :=
  (d.day - 1 + pyWeekday ⟨d.year, d.month, 1⟩) / 7 + 1

/-- Modelled from the spec's words for the free-text filter: plain
ASCII-case-insensitive substring matching of the search text against a
column. Compared with the source's LIKE wildcard semantics in the C8
theorems. -/
def spec_substring_match (col pat : String) : Bool :=
  containsChars (asciiLower pat).toList (asciiLower col).toList

/-- The record list of the concrete rollup scenario in the spec:
(Monthly, Income, 500000) and (Monthly, Expense, 200000), in the source's
category/kind strings. -/
def exMonthly : List Transaksi :=
  [⟨1, "March 2024", "Bulanan", "Pemasukan", "jual lele", 500000⟩,
   ⟨2, "March 2024", "Bulanan", "Pengeluaran", "beli pakan", 200000⟩]

/-! ## Helper lemmas -/

theorem daysInMonth_le (y m : Nat) : daysInMonth y m ≤ 31 := by
  unfold daysInMonth
  split
  · split <;> norm_num
  · split <;> norm_num

theorem pyWeekday_lt (d : Date) : pyWeekday d < 7 :=
  Nat.mod_lt _ (by norm_num)

/-! ## C10 -/

/-- C10: for every valid calendar date, `week_of_month` returns a value
between 1 and 6, and returns exactly 1 whenever the day of month is 1,
whatever weekday the month starts on. -/
theorem week_of_month_bounds (d : Date) (h : ValidDate d) :
    1 ≤ week_of_month d ∧ week_of_month d ≤ 6 ∧
      (d.day = 1 → week_of_month d = 1) := by
  obtain ⟨-, -, -, -, hd1, hd2⟩ := h
  have hdm : d.day ≤ 31 := le_trans hd2 (daysInMonth_le _ _)
  have ho : pyWeekday ⟨d.year, d.month, 1⟩ < 7 := pyWeekday_lt _
  simp only [week_of_month]
  refine ⟨Nat.le_add_left 1 _, ?_, ?_⟩
  · have h36 : d.day + pyWeekday ⟨d.year, d.month, 1⟩ - 1 ≤ 36 := by omega
    have h5 : (d.day + pyWeekday ⟨d.year, d.month, 1⟩ - 1) / 7 ≤ 36 / 7 :=
      Nat.div_le_div_right h36
    norm_num at h5
    omega
  · intro h1
    rw [h1]
    have h0 : 1 + pyWeekday ⟨d.year, d.month, 1⟩ - 1 =
        pyWeekday ⟨d.year, d.month, 1⟩ := by omega
    rw [h0, Nat.div_eq_of_lt ho]

/-- Closed instance of `week_of_month_bounds` at 2024-09-01. -/
theorem week_of_month_bounds_witness :
    ValidDate ⟨2024, 9, 1⟩ ∧
      (1 ≤ week_of_month ⟨2024, 9, 1⟩ ∧ week_of_month ⟨2024, 9, 1⟩ ≤ 6 ∧
        ((⟨2024, 9, 1⟩ : Date).day = 1 → week_of_month ⟨2024, 9, 1⟩ = 1)) :=
  ⟨by decide, week_of_month_bounds ⟨2024, 9, 1⟩ (by decide)⟩

/-! ## C2 -/

/-- C2: the week-of-month used in the Weekly label equals
`floor((day_of_month - 1 + offset) / 7) + 1` with `offset` the
Monday-anchored weekday index of the first of the month; when the 1st
falls on Sunday (offset 6, e.g. September 2024), day 1 gives week 1 and
day 2 gives week 2. -/
theorem week_of_month_matches_spec :
    (∀ d : Date, ValidDate d → week_of_month d = spec_week_of_month d) ∧
      pyWeekday ⟨2024, 9, 1⟩ = 6 ∧ week_of_month ⟨2024, 9, 1⟩ = 1 ∧
      week_of_month ⟨2024, 9, 2⟩ = 2 := by
  refine ⟨fun d h => ?_, by decide, by decide, by decide⟩
  obtain ⟨-, -, -, -, hd1, -⟩ := h
  simp only [week_of_month, spec_week_of_month]
  have h0 : d.day + pyWeekday ⟨d.year, d.month, 1⟩ - 1 =
      d.day - 1 + pyWeekday ⟨d.year, d.month, 1⟩ := by omega
  rw [h0]

/-- Closed instance of `week_of_month_matches_spec` at 2024-09-02. -/
theorem week_of_month_matches_spec_witness :
    ValidDate ⟨2024, 9, 2⟩ ∧
      week_of_month ⟨2024, 9, 2⟩ = spec_week_of_month ⟨2024, 9, 2⟩ :=
  ⟨by decide, week_of_month_matches_spec.1 ⟨2024, 9, 2⟩ (by decide)⟩

/-! ## C3 -/

/-- C3 counterexample: the source renders the Weekly label for 2024-03-01
with `strftime('%B')`, whose month name under the program's default C
locale is English, so the label is not the Indonesian
"Maret 2024 - Minggu 1" the claim states. -/
theorem build_periode_not_indonesian :
    build_periode ⟨2024, 3, 1⟩ "Mingguan" ≠ "Maret 2024 - Minggu 1" := by
  decide

/-- C3 amended: Weekly and Monthly labels render the month name from the
fixed 12-entry English month table of `strftime('%B')` under the default C
locale; `label(2024-03-01, Weekly)` is "March 2024 - Minggu 1",
`label(2024-03-04, Weekly)` is "March 2024 - Minggu 2" and
`label(2024-03-01, Monthly)` is "March 2024". -/
theorem build_periode_month_names :
    build_periode ⟨2024, 3, 1⟩ "Mingguan" = "March 2024 - Minggu 1" ∧
      build_periode ⟨2024, 3, 4⟩ "Mingguan" = "March 2024 - Minggu 2" ∧
      build_periode ⟨2024, 3, 1⟩ "Bulanan" = "March 2024" ∧
      monthNameEn 3 = "March" := by
  decide

/-! ## C1 -/

/-- C1: an insert stores exactly the row whose `periode` is
`build_periode` of the submitted (date, category), and an update rewrites
the picked row's `periode` to `build_periode` of the submitted
(date, category); no caller-supplied period is ever persisted (neither
handler takes one). -/
theorem periode_always_recomputed :
    (∀ (db : DB) (tgl : Date) (kat jenis ket : String) (jml : Rat) (db' : DB),
      simpanTransaksi db tgl kat jenis ket jml = Except.ok db' →
        db'.rows = db.rows ++
          [⟨db.nextId, build_periode tgl kat, kat, jenis, ket, jml⟩]) ∧
    (∀ (db : DB) (pid : Nat) (tglE : Date) (katE jenisE ketE : String)
        (jmlE : Rat) (r : Transaksi),
      r ∈ (simpanPerubahan db pid tglE katE jenisE ketE jmlE).rows →
      r.id = pid →
        r.periode = build_periode tglE katE ∧ r.kategori = katE) := by
  constructor
  · intro db tgl kat jenis ket jml db' h
    simp only [simpanTransaksi] at h
    split at h
    · simp at h
    · split at h
      · simp at h
      · simp only [Except.ok.injEq] at h
        rw [← h]
        rfl
  · intro db pid tglE katE jenisE ketE jmlE r hr hid
    simp only [simpanPerubahan, List.mem_map] at hr
    obtain ⟨r0, _, hEq⟩ := hr
    by_cases h0 : r0.id = pid
    · rw [if_pos h0] at hEq
      rw [← hEq]
      exact ⟨rfl, rfl⟩
    · rw [if_neg h0] at hEq
      rw [← hEq] at hid
      exact absurd hid h0

/-- Closed instance of `periode_always_recomputed`: inserting on 2024-03-01
with category Mingguan stores the recomputed weekly period. -/
theorem periode_always_recomputed_witness :
    (⟨[⟨1, "March 2024 - Minggu 1", "Mingguan", "Pemasukan", "x", 5⟩], 2⟩ : DB).rows =
      (⟨[], 1⟩ : DB).rows ++
        [⟨(⟨[], 1⟩ : DB).nextId, build_periode ⟨2024, 3, 1⟩ "Mingguan",
          "Mingguan", "Pemasukan", "x", 5⟩] :=
  periode_always_recomputed.1 ⟨[], 1⟩ ⟨2024, 3, 1⟩ "Mingguan" "Pemasukan" "x" 5
    ⟨[⟨1, "March 2024 - Minggu 1", "Mingguan", "Pemasukan", "x", 5⟩], 2⟩ rfl

/-! ## C5 -/

/-- C5 counterexample: deleting id 5 from a store whose only row has id 1
returns success (the handler runs `DELETE FROM transaksi WHERE id=?`
unconditionally and reports "Data dihapus"), so the claimed `NotFound`
failure does not happen; the store is unchanged. -/
theorem hapus_absent_ok :
    hapusData ⟨[⟨1, "2024", "Tahunan", "Pemasukan", "", 5⟩], 2⟩ 5 =
      Except.ok ⟨[⟨1, "2024", "Tahunan", "Pemasukan", "", 5⟩], 2⟩ := rfl

/-- C5 amended: delete of an id not present in the store completes
successfully (no error of any kind) and leaves the store unchanged. -/
theorem hapus_absent_unchanged (db : DB) (pid : Nat)
    (h : ∀ r ∈ db.rows, r.id ≠ pid) : hapusData db pid = Except.ok db := by
  unfold hapusData
  have hf : ∀ l : List Transaksi, (∀ r ∈ l, r.id ≠ pid) →
      l.filter (fun r => r.id ≠ pid) = l := by
    intro l
    induction l with
    | nil => intro _; rfl
    | cons a t ih =>
      intro hl
      have ha : a.id ≠ pid := hl a (List.mem_cons_self a t)
      rw [List.filter_cons, if_pos (by simp [ha]),
        ih (fun r hr => hl r (List.mem_cons_of_mem a hr))]
  rw [hf db.rows h]

/-- Closed instance of `hapus_absent_unchanged` at a one-row store. -/
theorem hapus_absent_unchanged_witness :
    hapusData ⟨[⟨3, "2024-03-01", "Harian", "Pengeluaran", "pakan", 7⟩], 4⟩ 9 =
      Except.ok ⟨[⟨3, "2024-03-01", "Harian", "Pengeluaran", "pakan", 7⟩], 4⟩ :=
  hapus_absent_unchanged ⟨[⟨3, "2024-03-01", "Harian", "Pengeluaran", "pakan", 7⟩], 4⟩ 9
    (by decide)

/-! ## C6 -/

/-- C6: the insert handler rejects every submission with `jumlah ≤ 0`
with the amount error before any store mutation (the error branch returns
no new store), and accepts `jumlah = 0.01`, inserting the record. -/
theorem validation_rejects_nonpositive :
    ∀ (db : DB) (tgl : Date) (kat jenis ket : String) (jml : Rat),
      (jml ≤ 0 →
        simpanTransaksi db tgl kat jenis ket jml =
          Except.error "Jumlah harus lebih dari 0") ∧
      (jenis ≠ "" →
        simpanTransaksi db tgl kat jenis ket (1 / 100) =
          Except.ok (insertRow db (build_periode tgl kat) kat jenis ket
            (1 / 100))) := by
  intro db tgl kat jenis ket jml
  constructor
  · intro h
    simp only [simpanTransaksi]
    rw [if_pos (Or.inr h)]
  · intro h
    simp only [simpanTransaksi]
    rw [if_neg (by push_neg; exact ⟨by norm_num, by norm_num⟩), if_neg h]

/-- Closed instance of `validation_rejects_nonpositive`: amount -5 is
rejected and amount 1/100 is accepted. -/
theorem validation_rejects_nonpositive_witness :
    simpanTransaksi ⟨[], 1⟩ ⟨2024, 3, 1⟩ "Harian" "Pengeluaran" "y" (-5) =
        Except.error "Jumlah harus lebih dari 0" ∧
      simpanTransaksi ⟨[], 1⟩ ⟨2024, 3, 1⟩ "Harian" "Pengeluaran" "y" (1 / 100) =
        Except.ok (insertRow ⟨[], 1⟩ (build_periode ⟨2024, 3, 1⟩ "Harian")
          "Harian" "Pengeluaran" "y" (1 / 100)) :=
  ⟨(validation_rejects_nonpositive ⟨[], 1⟩ ⟨2024, 3, 1⟩ "Harian" "Pengeluaran"
      "y" (-5)).1 (by decide),
   (validation_rejects_nonpositive ⟨[], 1⟩ ⟨2024, 3, 1⟩ "Harian" "Pengeluaran"
      "y" 0).2 (by decide)⟩

/-! ## C4 -/

/-- C4: the per-category pivot row satisfies
Balance = Income total - Expense total with an absent kind contributing 0;
a category with no Expense rows has Balance equal to its Income total, and
the concrete scenario (Income 500000, Expense 200000) yields Balance
300000. -/
theorem saldo_income_sub_expense :
    (∀ (rows : List Transaksi) (kat : String),
      saldo rows kat =
        totalKJ rows kat "Pemasukan" - totalKJ rows kat "Pengeluaran" ∧
      ((∀ r ∈ rows, r.kategori = kat → r.jenis ≠ "Pengeluaran") →
        saldo rows kat = totalKJ rows kat "Pemasukan")) ∧
    totalKJ exMonthly "Bulanan" "Pemasukan" = 500000 ∧
    totalKJ exMonthly "Bulanan" "Pengeluaran" = 200000 ∧
    saldo exMonthly "Bulanan" = 300000 := by
  refine ⟨fun rows kat => ⟨rfl, fun h => ?_⟩, ?_, ?_, ?_⟩
  · have hz : totalKJ rows kat "Pengeluaran" = 0 := by
      unfold totalKJ
      have hnil :
          rows.filter (fun r => r.kategori = kat ∧ r.jenis = "Pengeluaran") =
            ([] : List Transaksi) := by
        rw [List.filter_eq_nil_iff]
        intro a ha
        simp only [decide_eq_true_eq, not_and]
        exact fun h1 => h a ha h1
      rw [hnil]
      rfl
    unfold saldo
    rw [hz, sub_zero]
  · simp [totalKJ, exMonthly, List.filter]
  · simp [totalKJ, exMonthly, List.filter]
  · simp [saldo, totalKJ, exMonthly, List.filter]
    norm_num

/-- Closed instance of `saldo_income_sub_expense` on an income-only store. -/
theorem saldo_income_sub_expense_witness :
    saldo [⟨1, "March 2024", "Bulanan", "Pemasukan", "", 500000⟩] "Bulanan" =
      totalKJ [⟨1, "March 2024", "Bulanan", "Pemasukan", "", 500000⟩]
        "Bulanan" "Pemasukan" :=
  (saldo_income_sub_expense.1
    [⟨1, "March 2024", "Bulanan", "Pemasukan", "", 500000⟩] "Bulanan").2
    (by decide)

/-! ## C7 -/

theorem groupPJ_append_ne (rows : List Transaksi) (r : Transaksi)
    (kat : String) (h : ¬(r.kategori = kat)) :
    groupPJ (rows ++ [r]) kat = groupPJ rows kat := by
  unfold groupPJ
  rw [List.filter_append, List.filter_cons, if_neg (by simp [h]),
    List.filter_nil, List.append_nil]

theorem groupPJ_mem (rows : List Transaksi) (kat : String)
    (k : String × String) (t : Rat) (h : (k, t) ∈ groupPJ rows kat) :
    (∃ x ∈ rows, x.kategori = kat ∧ (x.periode, x.jenis) = k) ∧
    t = (((rows.filter (fun x => x.kategori = kat)).filter
      (fun x => (x.periode, x.jenis) = k)).map (fun x => x.jumlah)).sum := by
  unfold groupPJ at h
  simp only [List.mem_map] at h
  obtain ⟨k', hk', hEq⟩ := h
  cases hEq
  refine ⟨?_, rfl⟩
  have hk := List.mem_dedup.mp hk'
  simp only [List.mem_map] at hk
  obtain ⟨x, hx, hxk⟩ := hk
  exact ⟨x, List.mem_of_mem_filter hx,
    by simpa using List.of_mem_filter hx, hxk⟩

/-- C7: per-period rollups exist for exactly the Weekly, Monthly and Yearly
categories, each grouping its own category's records by (period, kind) and
summing `jumlah`; a Daily record changes none of the three rollups. -/
theorem rekap_per_period :
    (∀ (rows : List Transaksi) (r : Transaksi), r.kategori = "Harian" →
      rekap_mingguan (rows ++ [r]) = rekap_mingguan rows ∧
      rekap_bulanan (rows ++ [r]) = rekap_bulanan rows ∧
      rekap_tahunan (rows ++ [r]) = rekap_tahunan rows) ∧
    (∀ (rows : List Transaksi) (k : String × String) (t : Rat),
      ((k, t) ∈ rekap_mingguan rows →
        (∃ x ∈ rows, x.kategori = "Mingguan" ∧ (x.periode, x.jenis) = k) ∧
        t = (((rows.filter (fun x => x.kategori = "Mingguan")).filter
          (fun x => (x.periode, x.jenis) = k)).map (fun x => x.jumlah)).sum) ∧
      ((k, t) ∈ rekap_bulanan rows →
        (∃ x ∈ rows, x.kategori = "Bulanan" ∧ (x.periode, x.jenis) = k) ∧
        t = (((rows.filter (fun x => x.kategori = "Bulanan")).filter
          (fun x => (x.periode, x.jenis) = k)).map (fun x => x.jumlah)).sum) ∧
      ((k, t) ∈ rekap_tahunan rows →
        (∃ x ∈ rows, x.kategori = "Tahunan" ∧ (x.periode, x.jenis) = k) ∧
        t = (((rows.filter (fun x => x.kategori = "Tahunan")).filter
          (fun x => (x.periode, x.jenis) = k)).map (fun x => x.jumlah)).sum)) := by
  constructor
  · intro rows r h
    refine ⟨groupPJ_append_ne rows r "Mingguan" (by simp [h]),
      groupPJ_append_ne rows r "Bulanan" (by simp [h]),
      groupPJ_append_ne rows r "Tahunan" (by simp [h])⟩
  · intro rows k t
    exact ⟨groupPJ_mem rows "Mingguan" k t, groupPJ_mem rows "Bulanan" k t,
      groupPJ_mem rows "Tahunan" k t⟩

/-- Closed instance of `rekap_per_period`: appending a Daily record to the
concrete Monthly store changes none of the three rekap tables. -/
theorem rekap_per_period_witness :
    rekap_mingguan (exMonthly ++ [⟨3, "2024-03-01", "Harian", "Pemasukan", "", 1⟩]) =
      rekap_mingguan exMonthly ∧
    rekap_bulanan (exMonthly ++ [⟨3, "2024-03-01", "Harian", "Pemasukan", "", 1⟩]) =
      rekap_bulanan exMonthly ∧
    rekap_tahunan (exMonthly ++ [⟨3, "2024-03-01", "Harian", "Pemasukan", "", 1⟩]) =
      rekap_tahunan exMonthly :=
  rekap_per_period.1 exMonthly ⟨3, "2024-03-01", "Harian", "Pemasukan", "", 1⟩ rfl

/-! ## C8 and the LIKE-matcher lemmas -/

theorem leadsWith_nil_right (l : List Char) : leadsWith l [] = l.isEmpty := by
  cases l <;> rfl

theorem likeAux_pct_all : ∀ (fuel : Nat) (s : List Char),
    s.length + 1 ≤ fuel → likeAux fuel ['%'] s = true := by
  intro fuel
  induction fuel with
  | zero => intro s h; exact absurd h (by omega)
  | succ f ih =>
    intro s h
    match s with
    | [] => simp [likeAux]
    | c :: t =>
      have ht : t.length + 1 ≤ f := by
        simp only [List.length_cons] at h
        omega
      simp [likeAux, ih t ht]

theorem likeAux_plain :
    ∀ (lp : List Char), (∀ c ∈ lp, c ≠ '%' ∧ c ≠ '_') →
      ∀ (fuel : Nat) (s : List Char), lp.length + s.length + 1 ≤ fuel →
        likeAux fuel (lp ++ ['%']) s =
          leadsWith (lp.map asciiLowerChar) (s.map asciiLowerChar) := by
  intro lp
  induction lp with
  | nil =>
    intro _ fuel s h
    rw [List.nil_append, likeAux_pct_all fuel s (by simpa using h)]
    rfl
  | cons a lp ih =>
    intro hw fuel s h
    have ha := hw a (List.mem_cons_self a lp)
    match fuel with
    | 0 => exact absurd h (by omega)
    | f + 1 =>
      match s with
      | [] => simp [likeAux, List.cons_append, ha.1, leadsWith]
      | c :: t =>
        have hf : lp.length + t.length + 1 ≤ f := by
          simp only [List.length_cons] at h
          omega
        simp only [List.cons_append, likeAux, List.map_cons, List.append_eq]
        rw [if_neg ha.1,
          ih (fun x hx => hw x (List.mem_cons_of_mem a hx)) f t hf]
        simp [leadsWith, ha.2]

theorem likeAux_pct_plain :
    ∀ (fuel : Nat) (lp s : List Char), (∀ c ∈ lp, c ≠ '%' ∧ c ≠ '_') →
      lp.length + s.length + 2 ≤ fuel →
      likeAux fuel ('%' :: (lp ++ ['%'])) s =
        containsChars (lp.map asciiLowerChar) (s.map asciiLowerChar) := by
  intro fuel
  induction fuel with
  | zero => intro lp s _ h; exact absurd h (by omega)
  | succ f ih =>
    intro lp s hw h
    match s with
    | [] =>
      simp only [likeAux, if_pos rfl]
      rw [likeAux_plain lp hw f [] (by simp only [List.length_nil] at h ⊢; omega)]
      simp [containsChars, leadsWith_nil_right]
    | c :: t =>
      simp only [likeAux, if_pos rfl]
      rw [likeAux_plain lp hw f (c :: t)
          (by simp only [List.length_cons] at h ⊢; omega),
        ih lp t hw (by simp only [List.length_cons] at h; omega)]
      simp [containsChars, List.map_cons]

theorem likeMatch_plain (col pat : String)
    (h : ∀ c ∈ pat.toList, c ≠ '%' ∧ c ≠ '_') :
    likeMatch col pat = spec_substring_match col pat := by
  unfold likeMatch spec_substring_match
  rw [likeAux_pct_plain _ pat.toList col.toList h (by omega)]
  rfl

/-- C8 counterexample: with free text "a_c" the program returns the row
whose periode is "abc" (the text is interpolated unescaped into
`LIKE '%a_c%'`, where `_` matches any single character), although none of
the row's periode, jenis or keterangan contains "a_c" as a plain
case-insensitive substring — so "free_text matches as a case-insensitive
substring" is false of the code. -/
theorem listing_like_not_substring :
    (⟨1, "abc", "Harian", "Pemasukan", "", 5⟩ : Transaksi) ∈
      listTransaksi ⟨[⟨1, "abc", "Harian", "Pemasukan", "", 5⟩], 2⟩
        "Semua" "a_c" ∧
    spec_substring_match "abc" "a_c" = false ∧
    spec_substring_match "Pemasukan" "a_c" = false ∧
    spec_substring_match "" "a_c" = false := by
  decide

/-- C8 amended: the listing returns exactly the rows matching the
conjunction of the optional category filter and the optional free-text
filter, ordered by id descending; the free text is matched by SQLite
`LIKE '%text%'`, case-insensitively with `%` and `_` in the text acting
as wildcards, which for text containing neither `%` nor `_` is exactly
case-insensitive substring matching against period, kind or
description. -/
theorem listing_filters_and_order :
    (∀ (db : DB) (fk cari : String),
      List.Sorted idGe (listTransaksi db fk cari) ∧
      (∀ r : Transaksi, r ∈ listTransaksi db fk cari ↔
        r ∈ db.rows ∧
          (fk = "Semua" ∨ r.kategori = fk) ∧
          (pyStrip cari = "" ∨
            likeMatch r.periode (pyStrip cari) = true ∨
            likeMatch r.jenis (pyStrip cari) = true ∨
            likeMatch r.keterangan (pyStrip cari) = true))) ∧
    (∀ col pat : String, (∀ c ∈ pat.toList, c ≠ '%' ∧ c ≠ '_') →
      likeMatch col pat = spec_substring_match col pat) := by
  refine ⟨fun db fk cari => ?_, likeMatch_plain⟩
  refine ⟨List.sorted_insertionSort idGe _, fun r => ?_⟩
  unfold listTransaksi
  rw [List.mem_insertionSort, List.mem_filter]
  have h1 : ((if fk = "Semua" then true else decide (r.kategori = fk)) = true)
      ↔ (fk = "Semua" ∨ r.kategori = fk) := by
    by_cases h : fk = "Semua" <;> simp [h]
  have h2 : ((if pyStrip cari = "" then true
        else likeMatch r.periode (pyStrip cari) ||
          likeMatch r.jenis (pyStrip cari) ||
          likeMatch r.keterangan (pyStrip cari)) = true)
      ↔ (pyStrip cari = "" ∨
          likeMatch r.periode (pyStrip cari) = true ∨
          likeMatch r.jenis (pyStrip cari) = true ∨
          likeMatch r.keterangan (pyStrip cari) = true) := by
    by_cases h : pyStrip cari = "" <;> simp [h, or_assoc]
  simp only [matchesFilter, Bool.and_eq_true, h1, h2, and_assoc]

/-- Closed instance of `listing_filters_and_order`: sortedness on a
two-row store, and wildcard-free text "masuk" matching exactly as a
plain case-insensitive substring. -/
theorem listing_filters_and_order_witness :
    List.Sorted idGe (listTransaksi ⟨exMonthly, 3⟩ "Semua" "") ∧
      likeMatch "Pemasukan" "masuk" = spec_substring_match "Pemasukan" "masuk" :=
  ⟨(listing_filters_and_order.1 ⟨exMonthly, 3⟩ "Semua" "").1,
   listing_filters_and_order.2 "Pemasukan" "masuk" (by decide)⟩

/-! ## C9 and the decimal-rendering lemmas -/

theorem digitsAux10_eq :
    ∀ (fuel n : Nat), n ≤ fuel → digitsAux10 fuel n = Nat.digits 10 n := by
  intro fuel
  induction fuel with
  | zero =>
    intro n h
    have h0 : n = 0 := Nat.le_zero.mp h
    rw [h0]
    simp [digitsAux10]
  | succ f ih =>
    intro n h
    match n with
    | 0 => simp [digitsAux10]
    | m + 1 =>
      rw [digitsAux10, Nat.digits_def' (by norm_num : (1:Nat) < 10)
        (Nat.succ_pos m)]
      have hlt : (m + 1) / 10 < m + 1 := Nat.div_lt_self (Nat.succ_pos m)
        (by norm_num)
      rw [ih ((m + 1) / 10) (by omega)]

theorem decDigits_eq (n : Nat) : decDigits n = Nat.digits 10 n :=
  digitsAux10_eq n n (Nat.le_refl n)

theorem digitChar10_isDigit {d : Nat} (h : d < 10) :
    (digitChar10 d).isDigit = true := by
  interval_cases d <;> decide

theorem digitChar10_toNat {d : Nat} (h : d < 10) :
    (digitChar10 d).toNat - 48 = d := by
  interval_cases d <;> decide

theorem ofDigits_replicate_zero (b k : Nat) :
    Nat.ofDigits b (List.replicate k 0) = 0 := by
  induction k with
  | zero => rfl
  | succ m ih => simp [List.replicate_succ, Nat.ofDigits_cons, ih]

theorem digits_length_le_four {y : Nat} (h1 : y ≠ 0) (h9 : y ≤ 9999) :
    (Nat.digits 10 y).length ≤ 4 := by
  rw [Nat.digits_len 10 y (by norm_num) h1]
  have hlog : Nat.log 10 y < 4 :=
    Nat.log_lt_of_lt_pow h1 (by omega)
  omega

/-- C9: for every valid date, the Yearly label is a 4-character string of
decimal digits whose value, read back in base 10, is the year of the date
(`strftime('%Y')` zero-pads to 4 digits and `datetime` years stay below
10000). -/
theorem tahunan_label_is_year (d : Date) (h : ValidDate d) :
    (build_periode d "Tahunan").length = 4 ∧
    (∀ c ∈ (build_periode d "Tahunan").toList, c.isDigit = true) ∧
    Nat.ofDigits 10
      (((build_periode d "Tahunan").toList.map (fun c => c.toNat - 48)).reverse)
      = d.year := by
  obtain ⟨hy1, hy9, -, -, -, -⟩ := h
  have hy0 : d.year ≠ 0 := by omega
  have htl : (build_periode d "Tahunan").toList = zfillChars 4 d.year := rfl
  have hns : (natStr d.year).toList =
      ((Nat.digits 10 d.year).reverse).map digitChar10 := by
    unfold natStr
    rw [if_neg hy0, decDigits_eq]
    rfl
  have hL : (Nat.digits 10 d.year).length ≤ 4 := digits_length_le_four hy0 hy9
  have hlen : (natStr d.year).toList.length = (Nat.digits 10 d.year).length := by
    rw [hns, List.length_map, List.length_reverse]
  have hzc : zfillChars 4 d.year =
      List.replicate (4 - (Nat.digits 10 d.year).length) '0' ++
        ((Nat.digits 10 d.year).reverse).map digitChar10 := by
    unfold zfillChars
    rw [hlen, hns]
  refine ⟨?_, ?_, ?_⟩
  · have hsl : (build_periode d "Tahunan").length =
        (build_periode d "Tahunan").toList.length := rfl
    rw [hsl, htl, hzc, List.length_append, List.length_replicate,
      List.length_map, List.length_reverse]
    omega
  · intro c hc
    rw [htl, hzc] at hc
    rcases List.mem_append.mp hc with hrep | hmap
    · rw [List.eq_of_mem_replicate hrep]
      decide
    · obtain ⟨dd, hdd, rfl⟩ := List.mem_map.mp hmap
      exact digitChar10_isDigit
        (Nat.digits_lt_base (by norm_num) (List.mem_reverse.mp hdd))
  · rw [htl, hzc, List.map_append, List.map_replicate]
    have hmm : (((Nat.digits 10 d.year).reverse).map digitChar10).map
        (fun c => c.toNat - 48) = (Nat.digits 10 d.year).reverse := by
      rw [List.map_map]
      have hcongr : ∀ x ∈ (Nat.digits 10 d.year).reverse,
          ((fun c => c.toNat - 48) ∘ digitChar10) x = id x := by
        intro x hx
        simpa using digitChar10_toNat
          (Nat.digits_lt_base (by norm_num) (List.mem_reverse.mp hx))
      rw [List.map_congr_left hcongr, List.map_id]
    rw [hmm]
    have hz0 : ('0'.toNat - 48) = 0 := rfl
    rw [hz0, List.reverse_append, List.reverse_reverse,
      List.reverse_replicate, Nat.ofDigits_append, Nat.ofDigits_digits,
      ofDigits_replicate_zero, Nat.mul_zero, Nat.add_zero]

/-- Closed instance of `tahunan_label_is_year` at 2024-03-01. -/
theorem tahunan_label_is_year_witness :
    ValidDate ⟨2024, 3, 1⟩ ∧
      ((build_periode ⟨2024, 3, 1⟩ "Tahunan").length = 4 ∧
        (∀ c ∈ (build_periode ⟨2024, 3, 1⟩ "Tahunan").toList,
          c.isDigit = true) ∧
        Nat.ofDigits 10
          (((build_periode ⟨2024, 3, 1⟩ "Tahunan").toList.map
            (fun c => c.toNat - 48)).reverse) = (⟨2024, 3, 1⟩ : Date).year) :=
  ⟨by decide, tahunan_label_is_year ⟨2024, 3, 1⟩ (by decide)⟩
